import Mathlib

/-!
Verification of the OutRun2006Tweaks-FFB force-feedback synthesis core
(src/hooks_dinputffb.cpp), as a shallow embedding.

Modelling conventions:
* 32-bit floats are modelled as exact rationals (`ℚ`); all constants in the
  source (0.25, 0.10, 0.03, 12.0, 0.8, ...) are exactly representable.
* `int16_t` values are modelled as `Int` with explicit two's-complement
  narrowing (`wrap16`, reduction modulo 2^16 into [-32768, 32767]), matching
  the C++ narrowing conversions in the slew/deadband stage.
* The transcendental force composition (`tanh`, `sin`) only feeds the raw
  16-bit level entering the output-shaping stage; that level is passed as an
  explicit parameter `rawLevel` (its int16 range is the only fact downstream
  code uses, guaranteed by `tanh` being bounded by 1).
* `FFB::Update` is modelled for its in-gameplay processing path with the
  constant-force effect present (the path the specification calls a
  "processed tick"); `FFB::CheckWatchdog` is modelled separately.
-/

namespace OR2FFB

/-- Telemetry read from `EVWORK_CAR` each tick (hooks_dinputffb.cpp:471-486). -/
structure Frame where
  speed : ℚ
  stateFlags : Nat
  carFlags : Nat
  lateralForce1 : ℚ
  lateralForce2 : ℚ
  curGear : Nat
  prevGearState : Nat
  impactForce : ℚ
  steeringAngle : ℚ
  deriving DecidableEq

/-- Mutable FFB engine state (the statics of namespace FFB,
hooks_dinputffb.cpp:124-146). -/
structure FFBState where
  smoothedLateral : ℚ
  speedHistory : List ℚ
  speedHistoryIdx : Nat
  crashImpulseTimer : Int
  crashImpulseForce : ℚ
  prevGear : Nat
  prevCollisionFlags : Nat
  prevSpeed : ℚ
  gearShiftTimer : Int
  prevConstantLevel : Int
  lastUpdateTick : Nat
  deriving DecidableEq

/-- The user-configurable gains consulted by the modelled code paths. -/
structure Cfg where
  FFBWallImpact : ℚ
  deriving DecidableEq

/-- `std::clamp` for rationals. -/
def clampQ (v lo hi : ℚ) : ℚ := if v < lo then lo else if hi < v then hi else v

/-- `std::abs` for rationals. -/
def absQ (x : ℚ) : ℚ := if x < 0 then -x else x

/-- Dual-rate exponential moving average step (hooks_dinputffb.cpp:510-518):
attack coefficient 0.25 when the combined input exceeds the state in
magnitude, decay coefficient 0.10 otherwise. -/
def emaStep (sm c : ℚ) : ℚ :=
  let alpha : ℚ := if absQ c > absQ sm then 0.25 else 0.10
  alpha * c + (1 - alpha) * sm

/-- The lateral-smoothing stage of `FFB::Update` (runs unconditionally every
processed tick). -/
def emaStage (s : FFBState) (f : Frame) : FFBState :=
  { s with smoothedLateral :=
      emaStep s.smoothedLateral (f.lateralForce1 + f.lateralForce2) }

/-- The speed-window delta examined by the crash trigger: the value read back
from the 8-slot circular history after the current speed has been written
(hooks_dinputffb.cpp:521-531), minus the current speed. -/
def windowDelta (s : FFBState) (f : Frame) : ℚ :=
  (s.speedHistory.set (s.speedHistoryIdx % 8) f.speed).getD
      ((s.speedHistoryIdx + 1 - 6) % 8) 0 - f.speed

/-- Speed-window crash trigger (hooks_dinputffb.cpp:520-546): record the
current speed in the circular history, then latch a crash impulse if the
speed has dropped more than 0.03 against the windowed sample while current
speed exceeds 0.1 and no crash is pending. -/
def speedTrigStep (cfg : Cfg) (s : FFBState) (f : Frame) : FFBState :=
  let hist := s.speedHistory.set (s.speedHistoryIdx % 8) f.speed
  let idx := s.speedHistoryIdx + 1
  let s1 := { s with speedHistory := hist, speedHistoryIdx := idx }
  if s1.crashImpulseTimer ≤ 0 ∧ 6 < idx then
    let oldSpeed := hist.getD ((idx - 6) % 8) 0
    let wd := oldSpeed - f.speed
    if 0.03 < wd ∧ 0.1 < f.speed then
      { s1 with
        crashImpulseForce :=
          (if 0 ≤ f.steeringAngle then (-1 : ℚ) else 1) *
            clampQ ((wd - 0.03) * 12) 0.8 1 * cfg.FFBWallImpact,
        crashImpulseTimer := 90,
        smoothedLateral := 0 }
    else s1
  else s1

/-- Flag-edge crash trigger (hooks_dinputffb.cpp:548-562): a rising edge on
state-flag bit 0x1000 latches a fixed-magnitude (0.8) crash impulse when no
crash is pending. -/
def flagTrigStep (cfg : Cfg) (s : FFBState) (f : Frame) : FFBState :=
  if f.stateFlags &&& 4096 ≠ 0 ∧ s.prevCollisionFlags &&& 4096 = 0 ∧
      s.crashImpulseTimer ≤ 0 then
    { s with
      crashImpulseForce :=
        (if 0 ≤ f.steeringAngle then (-1 : ℚ) else 1) * 0.8 * cfg.FFBWallImpact,
      crashImpulseTimer := 90,
      smoothedLateral := 0 }
  else s

/-- Both crash triggers, in source order. -/
def triggerStage (cfg : Cfg) (s : FFBState) (f : Frame) : FFBState :=
  flagTrigStep cfg (speedTrigStep cfg s f) f

/-- Condition under which the speed-window trigger fires. -/
def speedTrigCond (s : FFBState) (f : Frame) : Prop :=
  s.crashImpulseTimer ≤ 0 ∧ 6 < s.speedHistoryIdx + 1 ∧
    0.03 < windowDelta s f ∧ 0.1 < f.speed

/-- Condition under which the flag-edge trigger fires (given that the
speed-window trigger did not). -/
def flagTrigCond (s : FFBState) (f : Frame) : Prop :=
  f.stateFlags &&& 4096 ≠ 0 ∧ s.prevCollisionFlags &&& 4096 = 0 ∧
    s.crashImpulseTimer ≤ 0

/-- Condition under which a gear-shift kick is latched
(hooks_dinputffb.cpp:617-618). -/
def gearTrigCond (s : FFBState) (f : Frame) : Prop :=
  f.curGear ≠ s.prevGear ∧ s.prevGear ≠ 0 ∧ s.gearShiftTimer ≤ 0

/-- The crash-jolt contribution added to `totalForce` as a function of the
(pre-decrement) timer value and the latched force
(hooks_dinputffb.cpp:600-611): full envelope while the timer exceeds 85,
`(timer - 80)/5` while it exceeds 80, and nothing during cooldown. -/
def crashContribution (timer : Int) (force : ℚ) : ℚ :=
  if 0 < timer then
    if 80 < timer then
      force * (if 85 < timer then 1 else ((timer : ℚ) - 80) / 5)
    else 0
  else 0

/-- Crash-timer decrement (hooks_dinputffb.cpp:600-614): decremented once
while positive, otherwise untouched. -/
def crashTimerStep (s : FFBState) : FFBState :=
  if 0 < s.crashImpulseTimer then
    { s with crashImpulseTimer := s.crashImpulseTimer - 1 }
  else s

/-- Gear-shift kick latch and timer decrement (hooks_dinputffb.cpp:616-626). -/
def gearStep (s : FFBState) (f : Frame) : FFBState :=
  let t0 : Int :=
    if f.curGear ≠ s.prevGear ∧ s.prevGear ≠ 0 ∧ s.gearShiftTimer ≤ 0 then 6
    else s.gearShiftTimer
  let t1 : Int := if 0 < t0 then t0 - 1 else t0
  { s with gearShiftTimer := t1 }

/-- Two's-complement narrowing of an `int` value to `int16_t`. -/
def wrap16 (n : Int) : Int := (n + 32768) % 65536 - 32768

/-- The constant-force level after the slew-rate limiter
(hooks_dinputffb.cpp:691-700): the change from the previously sent level is
capped at 2000 counts unless a crash jolt is in its active window or a gear
kick is running. The intermediate `slewDelta` and the clamped level are
`int16_t` variables, hence the narrowings. -/
def postSlewLevel (rawLevel prev crashTimer gearTimer : Int) : Int :=
  let slewDelta := wrap16 (rawLevel - prev)
  if 2000 < slewDelta.natAbs ∧ ¬(80 < crashTimer ∨ 0 < gearTimer) then
    wrap16 (prev + if 0 < slewDelta then 2000 else -2000)
  else rawLevel

/-- Slew limiter plus deadband (hooks_dinputffb.cpp:691-718). Returns the new
`prevConstantLevel` and whether a hardware update was issued; on a flush the
sent level is exactly the stored level. -/
def outputStage (rawLevel prev crashTimer gearTimer : Int) : Int × Bool :=
  let level := postSlewLevel rawLevel prev crashTimer gearTimer
  let delta := wrap16 ((level - prev).natAbs : Int)
  if 200 < delta ∨ 80 < crashTimer then (level, true) else (prev, false)

/-- One processed in-gameplay tick of `FFB::Update`
(hooks_dinputffb.cpp:413-787) with the constant-force effect present.
`rawLevel` is the 16-bit level obtained from the force composition
(`int16_t(tanh(totalForce) * 32767)`), whose transcendental computation is
abstracted; every stage that reads or writes persistent state is modelled
explicitly and in source order. -/
def update (cfg : Cfg) (s : FFBState) (f : Frame) (now : Nat) (rawLevel : Int) :
    FFBState :=
  let s0 := { s with lastUpdateTick := now }
  let s1 := emaStage s0 f
  let s2 := triggerStage cfg s1 f
  let s3 := crashTimerStep s2
  let s4 := gearStep s3 f
  let out := outputStage rawLevel s4.prevConstantLevel s4.crashImpulseTimer
    s4.gearShiftTimer
  { s4 with
    prevConstantLevel := out.1,
    prevGear := f.curGear,
    prevCollisionFlags := f.stateFlags,
    prevSpeed := f.speed }

/-- Run a sequence of processed ticks. -/
def run (cfg : Cfg) (s : FFBState) : List Frame → FFBState
  | [] => s
  | f :: fs => run cfg (update cfg s f 0 0) fs

/-- `GetTickCount()` subtraction: unsigned 32-bit wraparound difference. -/
def elapsedMs (now last : Nat) : Nat :=
  (now % 4294967296 + 4294967296 - last % 4294967296) % 4294967296

/-- `FFB::CheckWatchdog` (hooks_dinputffb.cpp:387-411): guards on device
readiness, then zeroes the hardware constant force (emitting level 0) and
resets the filter and crash state when no tick ran for more than 250 ms
and the last sent level is nonzero. Returns the new state and the level
written to hardware, if any. -/
def checkWatchdog (s : FFBState) (initialized hapticOpen : Bool)
    (constantEffectId : Int) (now : Nat) : FFBState × Option Int :=
  if initialized = false ∨ hapticOpen = false ∨ constantEffectId < 0 then
    (s, none)
  else if 250 < elapsedMs now s.lastUpdateTick ∧ 0 < s.lastUpdateTick ∧
      s.prevConstantLevel ≠ 0 then
    ({ s with prevConstantLevel := 0, smoothedLateral := 0,
              crashImpulseTimer := 0 }, some 0)
  else (s, none)

/-! ### Wheel profile resolver (hooks_dinputffb.cpp:149-208, 324-344) -/

/-- `::tolower` on an ASCII character. -/
def lowerChar (c : Char) : Char :=
  if 'A' ≤ c ∧ c ≤ 'Z' then Char.ofNat (c.toNat + 32) else c

/-- `std::transform(..., ::tolower)` over a string. -/
def lowerStr (s : List Char) : List Char := s.map lowerChar

/-- Whether the pattern occurs at the head of the string. -/
def matchesHere : List Char → List Char → Bool
  | _, [] => true
  | [], _ :: _ => false
  | c :: cs, p :: ps => c == p && matchesHere cs ps

/-- `std::string::find(pattern) != npos`: the pattern occurs contiguously
somewhere in the string. -/
def findSub : List Char → List Char → Bool
  | [], pat => matchesHere [] pat
  | c :: cs, pat => matchesHere (c :: cs) pat || findSub cs pat

/-- The `KnownWheels` table, in source order (hooks_dinputffb.cpp:155-189);
the null sentinel terminator is the end of the list. -/
def knownWheels : List (List Char × ℚ) :=
  [("Moza R3".toList, 3.9), ("Moza R5".toList, 5.5), ("Moza R9".toList, 9.0),
   ("Moza R12".toList, 12.0), ("Moza R16".toList, 16.0),
   ("Moza R21".toList, 21.0), ("Fanatec CSL DD".toList, 8.0),
   ("Fanatec GT DD".toList, 12.0), ("Fanatec DD1".toList, 20.0),
   ("Fanatec DD2".toList, 25.0), ("Simucube".toList, 25.0),
   ("Simagic Alpha".toList, 15.0), ("Simagic M10".toList, 10.0),
   ("Logitech G29".toList, 2.2), ("Logitech G920".toList, 2.2),
   ("Logitech G923".toList, 2.2), ("Logitech G27".toList, 2.2),
   ("Logitech G25".toList, 2.2), ("Logitech G Pro".toList, 11.0),
   ("Logitech PRO".toList, 11.0), ("Thrustmaster T300".toList, 3.9),
   ("Thrustmaster T500".toList, 3.0), ("Thrustmaster T-GT".toList, 4.2),
   ("Thrustmaster TS-XW".toList, 4.5), ("Thrustmaster TS-PC".toList, 4.5),
   ("Thrustmaster T818".toList, 10.0), ("Thrustmaster T248".toList, 3.5),
   ("Thrustmaster T150".toList, 2.5), ("Thrustmaster TMX".toList, 2.5),
   ("VRS DFP".toList, 20.0), ("Cammus".toList, 10.0)]

/-- First-match-wins scan of the wheel table against an already-lowercased
device name; 0 when the scan reaches the sentinel. -/
def lookupWheel : List (List Char × ℚ) → List Char → ℚ
  | [], _ => 0
  | (pat, nm) :: rest, dev =>
    if findSub dev (lowerStr pat) then nm else lookupWheel rest dev

/-- `FFB::DetectWheelTorque` (hooks_dinputffb.cpp:193-208). -/
def detectWheelTorque (name : List Char) : ℚ :=
  lookupWheel knownWheels (lowerStr name)

/-- The Logitech G29 reference torque (hooks_dinputffb.cpp:191). -/
def ReferenceNm : ℚ := 2.2

/-- The wheel torque used for scaling: a positive manual override wins,
otherwise auto-detection (hooks_dinputffb.cpp:325-337). -/
def resolveWheelNm (overrideNm : ℚ) (name : List Char) : ℚ :=
  if overrideNm ≤ 0 then detectWheelTorque name else overrideNm

/-- The torque scale computed in `FFB::DeferredInit`
(hooks_dinputffb.cpp:339-342). -/
def torqueScaleOf (overrideNm : ℚ) (name : List Char) : ℚ :=
  let nm := resolveWheelNm overrideNm name
  if ReferenceNm < nm then ReferenceNm / nm else 1

/-! ### Concrete scenario data -/

/-- Unit wall-impact gain. -/
def cfg1 : Cfg := { FFBWallImpact := 1 }

/-- The initial engine state (all statics zero-initialized). -/
def initState : FFBState :=
  { smoothedLateral := 0, speedHistory := List.replicate 8 0,
    speedHistoryIdx := 0, crashImpulseTimer := 0, crashImpulseForce := 0,
    prevGear := 0, prevCollisionFlags := 0, prevSpeed := 0,
    gearShiftTimer := 0, prevConstantLevel := 0, lastUpdateTick := 0 }

/-- A quiescent frame at the given speed. -/
def steadyFrame (v : ℚ) : Frame :=
  { speed := v, stateFlags := 0, carFlags := 0, lateralForce1 := 0,
    lateralForce2 := 0, curGear := 1, prevGearState := 1, impactForce := 0,
    steeringAngle := 0 }

/-- State after six processed ticks at speed 0.5 from a fresh engine. -/
def stateAfter6 : FFBState :=
  run cfg1 initState (List.replicate 6 (steadyFrame 0.5))

/-- The seventh tick's frame: speed dropped to 0.40. -/
def crashFrame : Frame := steadyFrame 0.4

/-- The state at the crash-trigger point of the seventh tick. -/
def crashTrigState : FFBState :=
  triggerStage cfg1 (emaStage stateAfter6 crashFrame) crashFrame

/-- A fresh-state frame carrying combined lateral force 18. -/
def lateralFrame : Frame :=
  { speed := 0, stateFlags := 0, carFlags := 0, lateralForce1 := 10,
    lateralForce2 := 8, curGear := 1, prevGearState := 1, impactForce := 0,
    steeringAngle := 0 }

/-- A state with both timers running (for timer-decrement scenarios). -/
def timerState : FFBState :=
  { initState with crashImpulseTimer := 5, gearShiftTimer := 3 }

/-- A state whose last synthesis tick sent level 500 at millisecond 1. -/
def wdState : FFBState :=
  { initState with lastUpdateTick := 1, prevConstantLevel := 500 }

end OR2FFB

/-! ### Stage lemmas -/

namespace OR2FFB

theorem emaStage_eq (s : FFBState) (f : Frame) :
    emaStage s f =
      { s with
        smoothedLateral :=
          emaStep s.smoothedLateral (f.lateralForce1 + f.lateralForce2) } :=
  rfl

theorem speedTrigStep_no_fire (cfg : Cfg) (s : FFBState) (f : Frame)
    (h : ¬ speedTrigCond s f) :
    speedTrigStep cfg s f =
      { s with
        speedHistory := s.speedHistory.set (s.speedHistoryIdx % 8) f.speed,
        speedHistoryIdx := s.speedHistoryIdx + 1 } := by
  obtain ⟨sm, hist, idx, ct, cf, pg, pcf, ps, gt, pcl, lut⟩ := s
  simp only [speedTrigCond, windowDelta] at h
  simp only [speedTrigStep]
  by_cases h1 : ct ≤ 0 ∧ 6 < idx + 1
  · rw [if_pos h1, if_neg]
    intro h2
    exact h ⟨h1.1, h1.2, h2.1, h2.2⟩
  · rw [if_neg h1]

theorem speedTrigStep_fire (cfg : Cfg) (s : FFBState) (f : Frame)
    (h : speedTrigCond s f) :
    speedTrigStep cfg s f =
      { s with
        speedHistory := s.speedHistory.set (s.speedHistoryIdx % 8) f.speed,
        speedHistoryIdx := s.speedHistoryIdx + 1,
        crashImpulseForce :=
          (if 0 ≤ f.steeringAngle then (-1 : ℚ) else 1) *
            clampQ ((windowDelta s f - 0.03) * 12) 0.8 1 * cfg.FFBWallImpact,
        crashImpulseTimer := 90,
        smoothedLateral := 0 } := by
  obtain ⟨h1, h2, h3, h4⟩ := h
  obtain ⟨sm, hist, idx, ct, cf, pg, pcf, ps, gt, pcl, lut⟩ := s
  simp only [windowDelta] at h3 ⊢
  simp only [speedTrigStep]
  rw [if_pos ⟨h1, h2⟩, if_pos ⟨h3, h4⟩]

theorem flagTrigStep_no_fire (cfg : Cfg) (s : FFBState) (f : Frame)
    (h : ¬ flagTrigCond s f) : flagTrigStep cfg s f = s := by
  simp only [flagTrigCond] at h
  simp only [flagTrigStep]
  rw [if_neg h]

theorem flagTrigStep_pos (cfg : Cfg) (s : FFBState) (f : Frame)
    (h : 0 < s.crashImpulseTimer) : flagTrigStep cfg s f = s := by
  simp only [flagTrigStep]
  rw [if_neg]
  intro hc
  exact absurd hc.2.2 (not_le.mpr h)

theorem flagTrigStep_fire (cfg : Cfg) (s : FFBState) (f : Frame)
    (h : flagTrigCond s f) :
    flagTrigStep cfg s f =
      { s with
        crashImpulseForce :=
          (if 0 ≤ f.steeringAngle then (-1 : ℚ) else 1) * 0.8 *
            cfg.FFBWallImpact,
        crashImpulseTimer := 90,
        smoothedLateral := 0 } := by
  simp only [flagTrigCond] at h
  simp only [flagTrigStep]
  rw [if_pos h]

theorem triggerStage_pos (cfg : Cfg) (s : FFBState) (f : Frame)
    (h : 0 < s.crashImpulseTimer) :
    triggerStage cfg s f =
      { s with
        speedHistory := s.speedHistory.set (s.speedHistoryIdx % 8) f.speed,
        speedHistoryIdx := s.speedHistoryIdx + 1 } := by
  unfold triggerStage
  rw [speedTrigStep_no_fire cfg s f (fun hc => absurd hc.1 (not_le.mpr h))]
  exact flagTrigStep_pos cfg _ f h

theorem triggerStage_no_fire (cfg : Cfg) (s : FFBState) (f : Frame)
    (hs : ¬ speedTrigCond s f) (hf : ¬ flagTrigCond s f) :
    triggerStage cfg s f =
      { s with
        speedHistory := s.speedHistory.set (s.speedHistoryIdx % 8) f.speed,
        speedHistoryIdx := s.speedHistoryIdx + 1 } := by
  unfold triggerStage
  rw [speedTrigStep_no_fire cfg s f hs]
  exact flagTrigStep_no_fire cfg _ f hf

theorem triggerStage_fire_speed (cfg : Cfg) (s : FFBState) (f : Frame)
    (h : speedTrigCond s f) :
    triggerStage cfg s f =
      { s with
        speedHistory := s.speedHistory.set (s.speedHistoryIdx % 8) f.speed,
        speedHistoryIdx := s.speedHistoryIdx + 1,
        crashImpulseForce :=
          (if 0 ≤ f.steeringAngle then (-1 : ℚ) else 1) *
            clampQ ((windowDelta s f - 0.03) * 12) 0.8 1 * cfg.FFBWallImpact,
        crashImpulseTimer := 90,
        smoothedLateral := 0 } := by
  unfold triggerStage
  rw [speedTrigStep_fire cfg s f h]
  exact flagTrigStep_pos cfg _ f (by norm_num : (0 : Int) < 90)

theorem speedTrigStep_gear (cfg : Cfg) (s : FFBState) (f : Frame) :
    (speedTrigStep cfg s f).gearShiftTimer = s.gearShiftTimer ∧
    (speedTrigStep cfg s f).prevGear = s.prevGear := by
  simp only [speedTrigStep]
  split_ifs <;> exact ⟨rfl, rfl⟩

theorem flagTrigStep_gear (cfg : Cfg) (s : FFBState) (f : Frame) :
    (flagTrigStep cfg s f).gearShiftTimer = s.gearShiftTimer ∧
    (flagTrigStep cfg s f).prevGear = s.prevGear := by
  simp only [flagTrigStep]
  split_ifs <;> exact ⟨rfl, rfl⟩

theorem triggerStage_gear_pres (cfg : Cfg) (s : FFBState) (f : Frame) :
    (triggerStage cfg s f).gearShiftTimer = s.gearShiftTimer ∧
    (triggerStage cfg s f).prevGear = s.prevGear := by
  unfold triggerStage
  exact ⟨(flagTrigStep_gear cfg _ f).1.trans (speedTrigStep_gear cfg s f).1,
    (flagTrigStep_gear cfg _ f).2.trans (speedTrigStep_gear cfg s f).2⟩

theorem speedTrigStep_timer_cases (cfg : Cfg) (s : FFBState) (f : Frame) :
    (speedTrigStep cfg s f).crashImpulseTimer = s.crashImpulseTimer ∨
    (speedTrigStep cfg s f).crashImpulseTimer = 90 := by
  simp only [speedTrigStep]
  split_ifs <;> first | exact Or.inl rfl | exact Or.inr rfl

theorem triggerStage_timer_cases (cfg : Cfg) (s : FFBState) (f : Frame) :
    (triggerStage cfg s f).crashImpulseTimer = s.crashImpulseTimer ∨
    (triggerStage cfg s f).crashImpulseTimer = 90 := by
  unfold triggerStage
  simp only [flagTrigStep]
  split_ifs <;>
    first
      | exact Or.inr rfl
      | exact speedTrigStep_timer_cases cfg s f

theorem crashTimerStep_pres (s : FFBState) :
    (crashTimerStep s).crashImpulseForce = s.crashImpulseForce ∧
    (crashTimerStep s).smoothedLateral = s.smoothedLateral ∧
    (crashTimerStep s).gearShiftTimer = s.gearShiftTimer ∧
    (crashTimerStep s).prevGear = s.prevGear := by
  unfold crashTimerStep
  split_ifs <;> exact ⟨rfl, rfl, rfl, rfl⟩

theorem crashTimerStep_timer (s : FFBState) :
    (crashTimerStep s).crashImpulseTimer =
      if 0 < s.crashImpulseTimer then s.crashImpulseTimer - 1
      else s.crashImpulseTimer := by
  unfold crashTimerStep
  split_ifs <;> rfl

theorem gearStep_timer (s : FFBState) (f : Frame) :
    (gearStep s f).gearShiftTimer =
      if f.curGear ≠ s.prevGear ∧ s.prevGear ≠ 0 ∧ s.gearShiftTimer ≤ 0 then 5
      else if 0 < s.gearShiftTimer then s.gearShiftTimer - 1
      else s.gearShiftTimer := by
  simp only [gearStep]
  split_ifs <;> first | rfl | omega

theorem update_crashTimer (cfg : Cfg) (s : FFBState) (f : Frame) (now : Nat)
    (rawLevel : Int) :
    (update cfg s f now rawLevel).crashImpulseTimer =
      (crashTimerStep
        (triggerStage cfg (emaStage { s with lastUpdateTick := now } f) f)
        ).crashImpulseTimer := rfl

theorem update_crashForce (cfg : Cfg) (s : FFBState) (f : Frame) (now : Nat)
    (rawLevel : Int) :
    (update cfg s f now rawLevel).crashImpulseForce =
      (crashTimerStep
        (triggerStage cfg (emaStage { s with lastUpdateTick := now } f) f)
        ).crashImpulseForce := rfl

theorem update_smoothed (cfg : Cfg) (s : FFBState) (f : Frame) (now : Nat)
    (rawLevel : Int) :
    (update cfg s f now rawLevel).smoothedLateral =
      (crashTimerStep
        (triggerStage cfg (emaStage { s with lastUpdateTick := now } f) f)
        ).smoothedLateral := rfl

theorem update_gearTimer (cfg : Cfg) (s : FFBState) (f : Frame) (now : Nat)
    (rawLevel : Int) :
    (update cfg s f now rawLevel).gearShiftTimer =
      (gearStep (crashTimerStep
        (triggerStage cfg (emaStage { s with lastUpdateTick := now } f) f)) f
        ).gearShiftTimer := rfl

theorem stateAfter6_eq : stateAfter6 =
    { smoothedLateral := 0,
      speedHistory := [0.5, 0.5, 0.5, 0.5, 0.5, 0.5, 0, 0],
      speedHistoryIdx := 6, crashImpulseTimer := 0, crashImpulseForce := 0,
      prevGear := 1, prevCollisionFlags := 0, prevSpeed := 0.5,
      gearShiftTimer := 0, prevConstantLevel := 0, lastUpdateTick := 0 } := by
  norm_num [stateAfter6, run, update, emaStage, emaStep, absQ, triggerStage,
    speedTrigStep, flagTrigStep, crashTimerStep, gearStep, outputStage,
    postSlewLevel, wrap16, cfg1, initState, steadyFrame, List.replicate,
    clampQ]

end OR2FFB

namespace OR2FFB

/-- C1: On a processed in-gameplay tick whose speed-window trigger condition
holds (crashImpulseTimer <= 0, more than 6 speed samples recorded, windowed
speed drop above 0.03, current speed above 0.1), the crash is latched at the
trigger point: crashImpulseTimer is set to 90, crashImpulseForce to
direction * clamp((windowDelta - 0.03) * 12, 0.8, 1.0) * wall-impact gain
with direction -1 iff steeringAngle >= 0, and smoothedLateral is reset to 0;
concretely, a speed sequence dropping from 0.5 to 0.40 over 6 ticks latches
with magnitude 0.84. -/
theorem speed_window_crash_latch (cfg : Cfg) (s : FFBState) (f : Frame)
    (h : speedTrigCond s f) :
    ((triggerStage cfg s f).crashImpulseTimer = 90 ∧
     (triggerStage cfg s f).crashImpulseForce =
       (if 0 ≤ f.steeringAngle then (-1 : ℚ) else 1) *
         clampQ ((windowDelta s f - 0.03) * 12) 0.8 1 * cfg.FFBWallImpact ∧
     (triggerStage cfg s f).smoothedLateral = 0) ∧
    (crashTrigState.crashImpulseTimer = 90 ∧
     crashTrigState.crashImpulseForce = -0.84) := by
  constructor
  · rw [triggerStage_fire_speed cfg s f h]
    exact ⟨rfl, rfl, rfl⟩
  · rw [show crashTrigState =
        triggerStage cfg1 (emaStage stateAfter6 crashFrame) crashFrame
      from rfl, stateAfter6_eq]
    norm_num [triggerStage, speedTrigStep, flagTrigStep, emaStage, emaStep,
      absQ, clampQ, cfg1, crashFrame, steadyFrame]

theorem speed_window_crash_latch_w :
    (triggerStage cfg1 (emaStage stateAfter6 crashFrame) crashFrame
      ).crashImpulseTimer = 90 :=
  ((speed_window_crash_latch cfg1 (emaStage stateAfter6 crashFrame) crashFrame
    (by
      rw [show emaStage stateAfter6 crashFrame =
          emaStage stateAfter6 crashFrame from rfl, stateAfter6_eq]
      norm_num [speedTrigCond, windowDelta, emaStage, emaStep, absQ,
        crashFrame, steadyFrame])).1).1

/-- C5: On every processed in-gameplay tick, crashImpulseTimer and
gearShiftTimer are each decremented exactly once while positive and never
become negative; once a timer reaches 0 it stays 0 until its triggering
condition fires again. -/
theorem timers_decrement (cfg : Cfg) (s : FFBState) (f : Frame) (now : Nat)
    (rawLevel : Int) :
    (0 ≤ s.crashImpulseTimer →
      0 ≤ (update cfg s f now rawLevel).crashImpulseTimer) ∧
    (0 < s.crashImpulseTimer →
      (update cfg s f now rawLevel).crashImpulseTimer =
        s.crashImpulseTimer - 1) ∧
    (s.crashImpulseTimer = 0 → ¬ speedTrigCond s f → ¬ flagTrigCond s f →
      (update cfg s f now rawLevel).crashImpulseTimer = 0) ∧
    (0 ≤ s.gearShiftTimer →
      0 ≤ (update cfg s f now rawLevel).gearShiftTimer) ∧
    (0 < s.gearShiftTimer →
      (update cfg s f now rawLevel).gearShiftTimer = s.gearShiftTimer - 1) ∧
    (s.gearShiftTimer = 0 → ¬ gearTrigCond s f →
      (update cfg s f now rawLevel).gearShiftTimer = 0) := by
  have e0 : (emaStage { s with lastUpdateTick := now } f).crashImpulseTimer =
      s.crashImpulseTimer := rfl
  have hg : (crashTimerStep (triggerStage cfg
      (emaStage { s with lastUpdateTick := now } f) f)).gearShiftTimer =
      s.gearShiftTimer :=
    (crashTimerStep_pres _).2.2.1.trans
      ((triggerStage_gear_pres cfg _ f).1)
  have hp : (crashTimerStep (triggerStage cfg
      (emaStage { s with lastUpdateTick := now } f) f)).prevGear =
      s.prevGear :=
    (crashTimerStep_pres _).2.2.2.trans
      ((triggerStage_gear_pres cfg _ f).2)
  refine ⟨?_, ?_, ?_, ?_, ?_, ?_⟩
  · intro h
    rw [update_crashTimer, crashTimerStep_timer]
    rcases triggerStage_timer_cases cfg
        (emaStage { s with lastUpdateTick := now } f) f with ht | ht <;>
      rw [ht]
    · rw [e0]
      split_ifs <;> omega
    · norm_num
  · intro h
    have hTc : (triggerStage cfg
        (emaStage { s with lastUpdateTick := now } f) f).crashImpulseTimer =
        s.crashImpulseTimer := by
      rw [triggerStage_pos cfg (emaStage { s with lastUpdateTick := now } f)
        f h]
      rfl
    rw [update_crashTimer, crashTimerStep_timer, hTc, if_pos h]
  · intro h0 hs hf
    have hTc : (triggerStage cfg
        (emaStage { s with lastUpdateTick := now } f) f).crashImpulseTimer =
        s.crashImpulseTimer := by
      rw [triggerStage_no_fire cfg (emaStage { s with lastUpdateTick := now }
        f) f hs hf]
      rfl
    rw [update_crashTimer, crashTimerStep_timer, hTc, h0]
    norm_num
  · intro h
    rw [update_gearTimer, gearStep_timer, hg, hp]
    split_ifs <;> omega
  · intro h
    rw [update_gearTimer, gearStep_timer, hg, hp]
    rw [if_neg (fun hc => absurd hc.2.2 (not_le.mpr h)), if_pos h]
  · intro h0 hgt
    simp only [gearTrigCond] at hgt
    rw [update_gearTimer, gearStep_timer, hg, hp, if_neg hgt,
      if_neg (by omega)]
    exact h0

theorem timers_decrement_w :
    (update cfg1 timerState (steadyFrame 0) 0 0).crashImpulseTimer =
      timerState.crashImpulseTimer - 1 ∧
    (update cfg1 timerState (steadyFrame 0) 0 0).gearShiftTimer =
      timerState.gearShiftTimer - 1 :=
  ⟨(timers_decrement cfg1 timerState (steadyFrame 0) 0 0).2.1 (by decide),
   (timers_decrement cfg1 timerState (steadyFrame 0) 0 0).2.2.2.2.1
     (by decide)⟩

/-- C6: On every processed tick with crashImpulseTimer > 0 (active window or
cooldown), neither crash trigger relatches: the timer is simply decremented
(never reset to 90 from any value at most 90) and crashImpulseForce is left
untouched by the trigger logic. -/
theorem crash_no_relatch (cfg : Cfg) (s : FFBState) (f : Frame) (now : Nat)
    (rawLevel : Int) (h : 0 < s.crashImpulseTimer) :
    (update cfg s f now rawLevel).crashImpulseTimer =
      s.crashImpulseTimer - 1 ∧
    (update cfg s f now rawLevel).crashImpulseForce = s.crashImpulseForce ∧
    (s.crashImpulseTimer ≤ 90 →
      (update cfg s f now rawLevel).crashImpulseTimer ≠ 90) := by
  have hTc : (triggerStage cfg
      (emaStage { s with lastUpdateTick := now } f) f).crashImpulseTimer =
      s.crashImpulseTimer := by
    rw [triggerStage_pos cfg (emaStage { s with lastUpdateTick := now } f)
      f h]
    rfl
  have hTf : (triggerStage cfg
      (emaStage { s with lastUpdateTick := now } f) f).crashImpulseForce =
      s.crashImpulseForce := by
    rw [triggerStage_pos cfg (emaStage { s with lastUpdateTick := now } f)
      f h]
    rfl
  refine ⟨?_, ?_, ?_⟩
  · rw [update_crashTimer, crashTimerStep_timer, hTc, if_pos h]
  · rw [update_crashForce, (crashTimerStep_pres _).1, hTf]
  · intro h90
    rw [update_crashTimer, crashTimerStep_timer, hTc, if_pos h]
    omega

theorem crash_no_relatch_w :
    (update cfg1 timerState (steadyFrame 0) 0 0).crashImpulseTimer ≠ 90 :=
  (crash_no_relatch cfg1 timerState (steadyFrame 0) 0 0 (by decide)).2.2
    (by decide)

/-- C7: On every processed in-gameplay tick, smoothedLateral is updated by
the dual-rate EMA on combined = lateralForce1 + lateralForce2: the new value
is 0.25*combined + 0.75*smoothedLateral when |combined| > |smoothedLateral|
and 0.10*combined + 0.90*smoothedLateral otherwise, independent of any
downstream deadband or slew limiting (which never touch the filter state);
from a fresh state with combined 18.0 the first step yields 4.5. -/
theorem lateral_ema (cfg : Cfg) (s : FFBState) (f : Frame) (now : Nat)
    (rawLevel : Int) :
    (emaStep s.smoothedLateral (f.lateralForce1 + f.lateralForce2) =
      if absQ (f.lateralForce1 + f.lateralForce2) >
          absQ s.smoothedLateral then
        0.25 * (f.lateralForce1 + f.lateralForce2) + 0.75 * s.smoothedLateral
      else
        0.10 * (f.lateralForce1 + f.lateralForce2) +
          0.90 * s.smoothedLateral) ∧
    (¬ speedTrigCond s f → ¬ flagTrigCond s f →
      (update cfg s f now rawLevel).smoothedLateral =
        emaStep s.smoothedLateral (f.lateralForce1 + f.lateralForce2)) ∧
    (update cfg1 initState lateralFrame 0 0).smoothedLateral = 4.5 := by
  refine ⟨?_, ?_, by
    norm_num [update, emaStage, emaStep, absQ, triggerStage, speedTrigStep,
      flagTrigStep, crashTimerStep, gearStep, outputStage, postSlewLevel,
      wrap16, cfg1, initState, lateralFrame]⟩
  · unfold emaStep
    split_ifs <;> norm_num
  · intro hs hf
    rw [update_smoothed, (crashTimerStep_pres _).2.1,
      triggerStage_no_fire cfg (emaStage { s with lastUpdateTick := now } f)
        f hs hf]
    rfl

theorem lateral_ema_w :
    (update cfg1 initState lateralFrame 0 0).smoothedLateral = 4.5 :=
  (lateral_ema cfg1 initState lateralFrame 0 0).2.2

end OR2FFB

namespace OR2FFB

/-- C2: On every processed tick with crashImpulseTimer in the active window
[81, 90], the crash contribution added to totalForce equals crashImpulseForce
at full strength for the first five ticks (timer 90 down to 86) and then
decays linearly as force * (timer - 80)/5 over the remaining five (85 down
to 81); with the timer in the cooldown range [1, 80] the contribution is
zero. -/
theorem crash_envelope (timer : Int) (force : ℚ) :
    (86 ≤ timer → timer ≤ 90 → crashContribution timer force = force) ∧
    (81 ≤ timer → timer ≤ 85 →
      crashContribution timer force = force * (((timer : ℚ) - 80) / 5)) ∧
    (1 ≤ timer → timer ≤ 80 → crashContribution timer force = 0) := by
  unfold crashContribution
  refine ⟨fun h1 h2 => ?_, fun h1 h2 => ?_, fun h1 h2 => ?_⟩
  · rw [if_pos (by omega), if_pos (by omega), if_pos (by omega), mul_one]
  · rw [if_pos (by omega), if_pos (by omega), if_neg (by omega)]
  · rw [if_pos (by omega), if_neg (by omega)]

theorem crash_envelope_w :
    crashContribution 88 2 = 2 ∧
    crashContribution 83 2 = 2 * ((((83 : Int) : ℚ) - 80) / 5) ∧
    crashContribution 40 2 = 0 :=
  ⟨(crash_envelope 88 2).1 (by decide) (by decide),
   (crash_envelope 83 2).2.1 (by decide) (by decide),
   (crash_envelope 40 2).2.2 (by decide) (by decide)⟩

/-- C3: For two consecutively sent constant-force levels, if at the later
send no crash jolt is in its active window (crashImpulseTimer <= 80) and no
gear-shift kick is running (gearShiftTimer <= 0), then the sent level
differs from the previously sent level by at most 2000 counts (of the
±32767 range); raw and previous levels range over the int16 values the
force pipeline can produce. -/
theorem slew_limited (raw prev ct gt : Int) (h1 : -32767 ≤ raw)
    (h2 : raw ≤ 32767) (h3 : -32768 ≤ prev) (h4 : prev ≤ 32767)
    (h5 : ct ≤ 80) (h6 : gt ≤ 0)
    (h7 : (outputStage raw prev ct gt).2 = true) :
    ((outputStage raw prev ct gt).1 - prev).natAbs ≤ 2000 := by
  simp only [outputStage, postSlewLevel, wrap16] at h7 ⊢
  split_ifs at h7 ⊢ with a b c <;> omega

theorem slew_limited_w :
    (outputStage 3000 0 0 0).2 = true ∧
    ((outputStage 3000 0 0 0).1 - 0).natAbs ≤ 2000 :=
  ⟨by decide,
   slew_limited 3000 0 0 0 (by decide) (by decide) (by decide) (by decide)
     (by decide) (by decide) (by decide)⟩

/-- C4 counterexample: at raw level 32767 with previously sent level -32767
(both producible int16 values) and no crash jolt active, the post-slew level
differs from prevConstantLevel by 65534 > 200, yet no hardware update is
issued: the deadband compares the int16 narrowing of the difference, which
wraps to -2 here. The converse direction of the claim is therefore false as
stated. -/
theorem deadband_converse_cex :
    postSlewLevel 32767 (-32767) 0 0 = 32767 ∧
    200 < (postSlewLevel 32767 (-32767) 0 0 - (-32767)).natAbs ∧
    ¬ 80 < (0 : Int) ∧
    (outputStage 32767 (-32767) 0 0).2 = false := by decide

/-- C4 (amended): if the post-slew level differs from prevConstantLevel by
at most 200 and no crash jolt is in its active window, no hardware update is
issued and prevConstantLevel is unchanged; conversely an update is issued
whenever the difference exceeds 200 AND the difference fits in the int16
narrowing (|difference| <= 32767, which the wrap-around counterexample
violates), or a crash jolt is in its active window; on flush the sent level
becomes the new prevConstantLevel. -/
theorem deadband (raw prev ct gt : Int) :
    ((postSlewLevel raw prev ct gt - prev).natAbs ≤ 200 → ct ≤ 80 →
      outputStage raw prev ct gt = (prev, false)) ∧
    (200 < (postSlewLevel raw prev ct gt - prev).natAbs →
      (postSlewLevel raw prev ct gt - prev).natAbs ≤ 32767 →
      outputStage raw prev ct gt = (postSlewLevel raw prev ct gt, true)) ∧
    (80 < ct →
      outputStage raw prev ct gt = (postSlewLevel raw prev ct gt, true)) ∧
    ((outputStage raw prev ct gt).2 = true →
      (outputStage raw prev ct gt).1 = postSlewLevel raw prev ct gt) := by
  simp only [outputStage, wrap16]
  generalize postSlewLevel raw prev ct gt = L
  split_ifs with d
  · exact ⟨fun hs hc => absurd d (by omega), fun _ _ => rfl, fun _ => rfl,
      fun _ => rfl⟩
  · exact ⟨fun _ _ => rfl, fun hs hb => absurd (Or.inl (by omega)) d,
      fun hc => absurd (Or.inr hc) d, fun hf => absurd hf (by decide)⟩

theorem deadband_w :
    outputStage 3000 0 0 0 = (postSlewLevel 3000 0 0 0, true) ∧
    outputStage 100 0 0 0 = (0, false) :=
  ⟨(deadband 3000 0 0 0).2.1 (by decide) (by decide),
   (deadband 100 0 0 0).1 (by decide) (by decide)⟩

/-- C8 counterexample: the device name "Moza R3 Fanatec DD1" contains
"Fanatec DD1" (case-insensitively) yet resolves to 3.9 Nm, not 20.0 Nm,
because the earlier "Moza R3" table entry matches first. The claim's "any
name containing Fanatec DD1 resolves to 20.0" is therefore false as
stated. -/
theorem wheel_fanatec_cex :
    findSub (lowerStr ("Moza R3 Fanatec DD1".toList))
        (lowerStr ("Fanatec DD1".toList)) = true ∧
    detectWheelTorque ("Moza R3 Fanatec DD1".toList) = 3.9 ∧
    (3.9 : ℚ) ≠ 20.0 := by
  refine ⟨by decide, ?_, by norm_num⟩
  simp only [detectWheelTorque, knownWheels, lookupWheel]
  rw [if_pos (by decide)]

/-- C8 (amended): the resolver matches the lowercased device name against
the ordered profile table with first-match-wins semantics and returns 0 when
nothing matches; a name containing "Fanatec DD1" in any letter case that
matches none of the eight earlier table entries resolves to 20.0 Nm; the
torque scale is 1 for an unknown wheel (0.0 Nm) with no manual override, and
2.2 / device_Nm whenever the resolved torque exceeds the 2.2 Nm
reference. -/
theorem wheel_resolver (name : List Char) (o : ℚ) :
    (lookupWheel [] (lowerStr name) = 0) ∧
    (∀ (pat : List Char) (nm : ℚ) (rest : List (List Char × ℚ)),
      lookupWheel ((pat, nm) :: rest) (lowerStr name) =
        if findSub (lowerStr name) (lowerStr pat) then nm
        else lookupWheel rest (lowerStr name)) ∧
    (findSub (lowerStr name) (lowerStr ("Fanatec DD1".toList)) = true →
      findSub (lowerStr name) (lowerStr ("Moza R3".toList)) = false →
      findSub (lowerStr name) (lowerStr ("Moza R5".toList)) = false →
      findSub (lowerStr name) (lowerStr ("Moza R9".toList)) = false →
      findSub (lowerStr name) (lowerStr ("Moza R12".toList)) = false →
      findSub (lowerStr name) (lowerStr ("Moza R16".toList)) = false →
      findSub (lowerStr name) (lowerStr ("Moza R21".toList)) = false →
      findSub (lowerStr name) (lowerStr ("Fanatec CSL DD".toList)) = false →
      findSub (lowerStr name) (lowerStr ("Fanatec GT DD".toList)) = false →
      detectWheelTorque name = 20.0) ∧
    (o ≤ 0 → detectWheelTorque name = 0 → torqueScaleOf o name = 1) ∧
    (ReferenceNm < resolveWheelNm o name →
      torqueScaleOf o name = ReferenceNm / resolveWheelNm o name) := by
  have step : ∀ (pat : List Char) (nm : ℚ) (rest : List (List Char × ℚ)),
      findSub (lowerStr name) (lowerStr pat) = false →
      lookupWheel ((pat, nm) :: rest) (lowerStr name) =
        lookupWheel rest (lowerStr name) := by
    intro pat nm rest hfalse
    simp only [lookupWheel, hfalse]
    simp
  have stepT : ∀ (pat : List Char) (nm : ℚ) (rest : List (List Char × ℚ)),
      findSub (lowerStr name) (lowerStr pat) = true →
      lookupWheel ((pat, nm) :: rest) (lowerStr name) = nm := by
    intro pat nm rest htrue
    simp only [lookupWheel, htrue]
    simp
  refine ⟨rfl, fun pat nm rest => rfl, ?_, ?_, ?_⟩
  · intro h9 hm1 hm2 hm3 hm4 hm5 hm6 hc1 hc2
    unfold detectWheelTorque knownWheels
    rw [step _ _ _ hm1, step _ _ _ hm2, step _ _ _ hm3, step _ _ _ hm4,
      step _ _ _ hm5, step _ _ _ hm6, step _ _ _ hc1, step _ _ _ hc2,
      stepT _ _ _ h9]
  · intro ho hd
    simp only [torqueScaleOf, resolveWheelNm, if_pos ho, hd]
    rw [if_neg]
    norm_num [ReferenceNm]
  · intro h
    simp only [torqueScaleOf]
    rw [if_pos h]

theorem wheel_resolver_w :
    detectWheelTorque ("FANATEC dd1 V2".toList) = 20.0 ∧
    torqueScaleOf 0 ("Mystery Wheel 9000".toList) = 1 :=
  ⟨(wheel_resolver ("FANATEC dd1 V2".toList) 0).2.2.1 (by decide) (by decide)
      (by decide) (by decide) (by decide) (by decide) (by decide) (by decide)
      (by decide),
   (wheel_resolver ("Mystery Wheel 9000".toList) 0).2.2.2.1 (by norm_num)
     (by
       simp only [detectWheelTorque, knownWheels, lookupWheel]
       norm_num
       decide)⟩

/-- C9: when the watchdog check runs more than 250 ms after the last
synthesis tick on a ready device and the last sent force level is nonzero,
it issues a zero constant-force command and sets prevConstantLevel to 0,
smoothedLateral to 0 and crashImpulseTimer to 0; afterwards, further
watchdog checks issue no command (the output stays zero) until a synthesis
tick changes the state again. -/
theorem watchdog_zero (s : FFBState) (e : Int) (now : Nat)
    (he : 0 ≤ e) (hl : 0 < s.lastUpdateTick) (h2 : s.lastUpdateTick ≤ now)
    (h3 : 250 < now - s.lastUpdateTick) (h4 : now < 4294967296)
    (h5 : s.prevConstantLevel ≠ 0) :
    (checkWatchdog s true true e now).2 = some 0 ∧
    (checkWatchdog s true true e now).1.prevConstantLevel = 0 ∧
    (checkWatchdog s true true e now).1.smoothedLateral = 0 ∧
    (checkWatchdog s true true e now).1.crashImpulseTimer = 0 ∧
    ∀ (b1 b2 : Bool) (e2 : Int) (n2 : Nat),
      (checkWatchdog (checkWatchdog s true true e now).1 b1 b2 e2 n2).2 =
        none := by
  have hel : 250 < elapsedMs now s.lastUpdateTick ∧ 0 < s.lastUpdateTick ∧
      s.prevConstantLevel ≠ 0 := by
    refine ⟨?_, hl, h5⟩
    unfold elapsedMs
    omega
  have hg : ¬(true = false ∨ true = false ∨ e < 0) := by
    push_neg
    exact ⟨by decide, by decide, he⟩
  simp only [checkWatchdog]
  rw [if_neg hg, if_pos hel]
  refine ⟨rfl, rfl, rfl, rfl, ?_⟩
  intro b1 b2 e2 n2
  simp only [checkWatchdog]
  split_ifs with g1 g2
  · rfl
  · exact absurd rfl g2.2.2
  · rfl

theorem watchdog_zero_w :
    (checkWatchdog wdState true true 0 300).2 = some 0 ∧
    (checkWatchdog wdState true true 0 300).1.prevConstantLevel = 0 :=
  ⟨(watchdog_zero wdState 0 300 (by decide) (by decide) (by decide)
      (by decide) (by decide) (by decide)).1,
   (watchdog_zero wdState 0 300 (by decide) (by decide) (by decide)
      (by decide) (by decide) (by decide)).2.1⟩

/-- C10: the watchdog never issues a hardware command unless initialization
succeeded, the haptic device is open, the constant-force effect exists, a
synthesis tick has already run (lastUpdateTick > 0) and the last sent level
is nonzero; in particular it writes nothing before the first Update call,
and after it has zeroed the output every further watchdog check is a
no-op. -/
theorem watchdog_guard (s : FFBState) (b1 b2 : Bool) (e : Int) (now : Nat) :
    ((checkWatchdog s b1 b2 e now).2 ≠ none →
      b1 = true ∧ b2 = true ∧ 0 ≤ e ∧ 0 < s.lastUpdateTick ∧
        s.prevConstantLevel ≠ 0) ∧
    (s.lastUpdateTick = 0 → (checkWatchdog s b1 b2 e now).2 = none) ∧
    (s.prevConstantLevel = 0 → (checkWatchdog s b1 b2 e now).2 = none) ∧
    ((checkWatchdog s b1 b2 e now).2 ≠ none →
      ∀ (b1' b2' : Bool) (e' : Int) (n' : Nat),
        (checkWatchdog (checkWatchdog s b1 b2 e now).1 b1' b2' e' n').2 =
          none) := by
  simp only [checkWatchdog]
  split_ifs with g1 g2
  · exact ⟨fun h => absurd rfl h, fun _ => rfl, fun _ => rfl,
      fun h => absurd rfl h⟩
  · push_neg at g1
    obtain ⟨gb1, gb2, ge⟩ := g1
    have hb1 : b1 = true := by
      cases b1
      · exact absurd rfl gb1
      · rfl
    have hb2 : b2 = true := by
      cases b2
      · exact absurd rfl gb2
      · rfl
    refine ⟨fun _ => ⟨hb1, hb2, ge, g2.2.1, g2.2.2⟩,
      fun h0 => absurd g2.2.1 (by omega), fun hp => absurd hp g2.2.2,
      fun _ => ?_⟩
    intro b1' b2' e' n'
    simp only [checkWatchdog]
    split_ifs with k1 k2
    · rfl
    · exact absurd rfl k2.2.2
    · rfl
  · exact ⟨fun h => absurd rfl h, fun _ => rfl, fun _ => rfl,
      fun h => absurd rfl h⟩

theorem watchdog_guard_w :
    (checkWatchdog initState true true 0 300).2 = none :=
  (watchdog_guard initState true true 0 300).2.1 rfl

end OR2FFB
